import Mathlib

/-!
Shallow embedding of the trivia-board game backend (game, team, clue-state and
response-validation services) and proofs of its specification claims.

The relational store is modelled as a `DB` record of row lists.  Each service
function is translated from the TypeScript source: it receives the current
`DB` plus its inputs (fresh row ids are passed explicitly where the store
would generate them) and returns an `Except String result` together with the
resulting `DB` (unchanged on error).  `findUnique`/`findFirst` become
`List.find?`; an id-keyed `update` becomes a `List.map` replacing the row with
the matching id; `create` appends a row.
-/

namespace TriviaBoard

inductive GameStatus where
  | LOBBY
  | IN_PROGRESS
  | FINISHED
deriving DecidableEq, Repr

inductive UserRole where
  | HOST
  | OPERATOR
  | PLAYER
deriving DecidableEq, Repr

inductive ClueBoardState where
  | AVAILABLE
  | PENDING
  | CORRECT
  | INCORRECT
deriving DecidableEq, Repr

structure Game where
  id : Nat
  title : String
  hostId : Nat
  teamLimit : Int
  status : GameStatus
deriving DecidableEq, Repr

structure Team where
  id : Nat
  gameId : Nat
  name : String
  order : Nat
  score : Int
deriving DecidableEq, Repr

structure TeamMember where
  id : Nat
  teamId : Nat
  userId : Nat
  isCaptain : Bool
deriving DecidableEq, Repr

structure User where
  id : Nat
  role : UserRole
deriving DecidableEq, Repr

structure Round where
  id : Nat
  gameId : Nat
  order : Nat
deriving DecidableEq, Repr

structure Category where
  id : Nat
  roundId : Nat
  title : String
deriving DecidableEq, Repr

structure Clue where
  id : Nat
  categoryId : Nat
  value : Int
deriving DecidableEq, Repr

structure ClueState where
  id : Nat
  clueId : Nat
  gameId : Nat
  state : ClueBoardState
  pickedByTeamId : Option Nat
  resolvedById : Option Nat
deriving DecidableEq, Repr

structure TeamResponse where
  id : Nat
  teamId : Nat
  clueId : Nat
  submittedById : Nat
  submittedAnswer : String
  isCorrect : Option Bool
  awardedValue : Option Int
  validatedById : Option Nat
  validatedAt : Option Nat
deriving DecidableEq, Repr

structure DB where
  games : List Game
  teams : List Team
  teamMembers : List TeamMember
  users : List User
  rounds : List Round
  categories : List Category
  clues : List Clue
  clueStates : List ClueState
  responses : List TeamResponse
deriving DecidableEq, Repr

/-- `String.prototype.trim()`: strips leading and trailing whitespace.
Written by structural recursion on the character list so that it evaluates
inside the kernel. -/
def jsTrim (s : String) : String :=
  ⟨((s.data.dropWhile Char.isWhitespace).reverse.dropWhile Char.isWhitespace).reverse⟩

/-- `clue.category.round.game` context loaded by `loadClue` in the clue
service (`findUnique` on the clue with nested includes). -/
structure ClueWithContext where
  clue : Clue
  category : Category
  round : Round
  game : Game
deriving DecidableEq, Repr

/-- `loadClue`: `prisma.clue.findUnique({where: {id: clueId}, include: clueInclude})`
followed by the `if (!clue) throw new Error("Clue not found")` guard.  The
nested relation rows are resolved through their foreign keys; a dangling
foreign key (impossible in a referentially intact store) also reports
"Clue not found". -/
def loadClue (db : DB) (clueId : Nat) : Except String ClueWithContext :=
  match db.clues.find? (fun c => c.id == clueId) with
  | none => .error "Clue not found"
  | some clue =>
    match db.categories.find? (fun c => c.id == clue.categoryId) with
    | none => .error "Clue not found"
    | some cat =>
      match db.rounds.find? (fun r => r.id == cat.roundId) with
      | none => .error "Clue not found"
      | some rnd =>
        match db.games.find? (fun g => g.id == rnd.gameId) with
        | none => .error "Clue not found"
        | some game => .ok { clue := clue, category := cat, round := rnd, game := game }

/-- Result of `selectClue` before the surrounding store is rebuilt: the
returned pending state row and the new `clueStates` table. -/
def selectClueCore (db : DB) (clueId teamId actorId freshStateId : Nat) :
    Except String (ClueState × List ClueState) :=
  match loadClue db clueId with
  | .error e => .error e
  | .ok ctx =>
    if ctx.game.status ≠ GameStatus.IN_PROGRESS then
      .error "Clues can only be selected while the game is in progress"
    else
      match db.teams.find? (fun t => t.id == teamId) with
      | none => .error "Team not found"
      | some team =>
        if team.gameId ≠ ctx.round.gameId then
          .error "Team and clue do not belong to the same game"
        else
          match db.teamMembers.find? (fun m => m.teamId == teamId && m.userId == actorId) with
          | none => .error "Only team members can select a clue on behalf of their team"
          | some _ =>
            match db.clueStates.find? (fun s => s.clueId == clueId) with
            | some st =>
              if st.state ≠ ClueBoardState.AVAILABLE then
                .error "Clue has already been taken"
              else
                let st2 := { st with state := ClueBoardState.PENDING,
                                     pickedByTeamId := some teamId }
                .ok (st2, db.clueStates.map (fun s =>
                  if s.id == st.id then
                    { s with state := ClueBoardState.PENDING, pickedByTeamId := some teamId }
                  else s))
            | none =>
              let st2 : ClueState :=
                { id := freshStateId, clueId := clueId, gameId := ctx.round.gameId,
                  state := ClueBoardState.PENDING, pickedByTeamId := some teamId,
                  resolvedById := none }
              .ok (st2, db.clueStates ++ [st2])

/-- `selectClue(input)` from the clue service: loads the clue with its game,
requires the game to be `IN_PROGRESS`, the team to exist in the same game and
the actor to be a member of that team, rejects a non-`AVAILABLE` existing
state with "Clue has already been taken", and otherwise writes the `PENDING`
state (updating the existing row or creating a fresh one). -/
def selectClue (db : DB) (clueId teamId actorId freshStateId : Nat) :
    (Except String ClueState) × DB :=
  match selectClueCore db clueId teamId actorId freshStateId with
  | .error e => (.error e, db)
  | .ok (st, css) => (.ok st, { db with clueStates := css })

/-- `updateClueState(input)`: loads the clue, requires the `resolvedById` user
to exist (no role check) and a `ClueState` row to already exist, then
overwrites `state` and `resolvedById` on that row. -/
def updateClueState (db : DB) (clueId : Nat) (state : ClueBoardState) (resolvedById : Nat) :
    (Except String ClueState) × DB :=
  match loadClue db clueId with
  | .error e => (.error e, db)
  | .ok _ =>
    match db.users.find? (fun u => u.id == resolvedById) with
    | none => (.error "Operator not found", db)
    | some _ =>
      match db.clueStates.find? (fun s => s.clueId == clueId) with
      | none => (.error "Clue state not found", db)
      | some st =>
        let st2 := { st with state := state, resolvedById := some resolvedById }
        (.ok st2, { db with clueStates := db.clueStates.map (fun s =>
          if s.id == st.id then { s with state := state, resolvedById := some resolvedById }
          else s) })

/-- `resetClueState(clueId, actorId)`: loads the clue, requires the actor to
exist; with no existing state row it creates one as `AVAILABLE`, otherwise it
resets the row to `AVAILABLE` and clears `pickedByTeamId`/`resolvedById`. -/
def resetClueState (db : DB) (clueId actorId freshStateId : Nat) :
    (Except String ClueState) × DB :=
  match loadClue db clueId with
  | .error e => (.error e, db)
  | .ok ctx =>
    match db.users.find? (fun u => u.id == actorId) with
    | none => (.error "Operator not found", db)
    | some _ =>
      match db.clueStates.find? (fun s => s.clueId == clueId) with
      | none =>
        let st : ClueState :=
          { id := freshStateId, clueId := clueId, gameId := ctx.round.gameId,
            state := ClueBoardState.AVAILABLE, pickedByTeamId := none, resolvedById := none }
        (.ok st, { db with clueStates := db.clueStates ++ [st] })
      | some st =>
        let st2 := { st with state := ClueBoardState.AVAILABLE,
                             pickedByTeamId := none, resolvedById := none }
        (.ok st2, { db with clueStates := db.clueStates.map (fun s =>
          if s.id == st.id then
            { s with state := ClueBoardState.AVAILABLE,
                     pickedByTeamId := none, resolvedById := none }
          else s) })

/-- `createGame(input)` from the game service: only checks that the trimmed
title is non-empty; `teamLimit` defaults to 4 and is stored unchecked; the new
game starts in `LOBBY`. -/
def createGame (db : DB) (hostId : Nat) (title : String) (teamLimit : Option Int)
    (freshGameId : Nat) : (Except String Game) × DB :=
  let tl := teamLimit.getD 4
  if jsTrim title = "" then
    (.error "Game title is required", db)
  else
    let game : Game :=
      { id := freshGameId, title := jsTrim title, hostId := hostId,
        teamLimit := tl, status := GameStatus.LOBBY }
    (.ok game, { db with games := db.games ++ [game] })

/-- `updateGameSettings(gameId, data, actorId)`: requires the game to exist,
the actor to be its host and the status to be `LOBBY`; the effective team
limit (given value, else current) must be at least 1. -/
def updateGameSettings (db : DB) (gameId : Nat) (title : Option String)
    (teamLimit : Option Int) (actorId : Nat) : (Except String Game) × DB :=
  match db.games.find? (fun g => g.id == gameId) with
  | none => (.error "Game not found", db)
  | some game =>
    if game.hostId ≠ actorId then
      (.error "Only the host can perform this action", db)
    else if game.status ≠ GameStatus.LOBBY then
      (.error "Game settings are locked once the game starts", db)
    else
      let nextTitle := (title.map jsTrim).getD game.title
      let nextTeamLimit := teamLimit.getD game.teamLimit
      if nextTeamLimit < 1 then
        (.error "Team limit must be at least 1", db)
      else
        let game2 := { game with title := nextTitle, teamLimit := nextTeamLimit }
        (.ok game2, { db with games := db.games.map (fun g =>
          if g.id == gameId then { g with title := nextTitle, teamLimit := nextTeamLimit }
          else g) })

/-- `startGame(gameId, actorId)`: requires the game to exist, the actor to be
its host, status `LOBBY` and at least one team; transitions to
`IN_PROGRESS`. -/
def startGame (db : DB) (gameId actorId : Nat) : (Except String Game) × DB :=
  match db.games.find? (fun g => g.id == gameId) with
  | none => (.error "Game not found", db)
  | some game =>
    if game.hostId ≠ actorId then
      (.error "Only the host can perform this action", db)
    else if game.status ≠ GameStatus.LOBBY then
      (.error "Game has already started", db)
    else if (db.teams.filter (fun t => t.gameId == gameId)).length = 0 then
      (.error "Add at least one team before starting the game", db)
    else
      let game2 := { game with status := GameStatus.IN_PROGRESS }
      (.ok game2, { db with games := db.games.map (fun g =>
        if g.id == gameId then { g with status := GameStatus.IN_PROGRESS } else g) })

/-- `createTeam(input)` from the team service: requires a non-blank name, an
existing game and actor, game status `LOBBY`, and team count strictly below
`teamLimit`; the new team gets `order = currentCount + 1` and, when
`makeCaptain`, a captain membership row for the actor. -/
def createTeam (db : DB) (gameId : Nat) (name : String) (actorId : Nat)
    (makeCaptain : Bool) (freshTeamId freshMemberId : Nat) : (Except String Team) × DB :=
  if jsTrim name = "" then
    (.error "Team name is required", db)
  else
    match db.games.find? (fun g => g.id == gameId) with
    | none => (.error "Game not found", db)
    | some game =>
      match db.users.find? (fun u => u.id == actorId) with
      | none => (.error "Actor not found", db)
      | some _ =>
        if game.status ≠ GameStatus.LOBBY then
          (.error "Teams can only be managed while the game is in the lobby state", db)
        else
          let count := (db.teams.filter (fun t => t.gameId == gameId)).length
          if game.teamLimit ≤ (count : Int) then
            (.error "Team limit reached for this game", db)
          else
            let team : Team :=
              { id := freshTeamId, gameId := gameId, name := jsTrim name,
                order := count + 1, score := 0 }
            let newMembers :=
              if makeCaptain then
                [({ id := freshMemberId, teamId := freshTeamId, userId := actorId,
                    isCaptain := true } : TeamMember)]
              else []
            (.ok team, { db with teams := db.teams ++ [team],
                                 teamMembers := db.teamMembers ++ newMembers })

/-- Index of the first row with the given id (models an id-keyed
`findIndex`). -/
def idxOfId (tid : Nat) : List Team → Option Nat
  | [] => none
  | t :: ts => if t.id == tid then some 0 else (idxOfId tid ts).map (fun i => i + 1)

/-- The `orderBy: { order: "asc" }` read used before re-numbering. -/
def sortByOrder (l : List Team) : List Team :=
  l.insertionSort (fun a b => a.order ≤ b.order)

/-- One re-numbering update: if the row appears at index `i` of the
ascending-order read, its order becomes `i + 1`; other rows are untouched. -/
def renumberRow (sorted : List Team) (t : Team) : Team :=
  match idxOfId t.id sorted with
  | some i => { t with order := i + 1 }
  | none => t

/-- The batch of order updates issued after the delete: every remaining team
of the game is re-numbered to its position (plus one) in the
`orderBy: { order: "asc" }` read. -/
def renumberTeams (teams : List Team) (gid : Nat) : List Team :=
  teams.map (renumberRow (sortByOrder (teams.filter (fun t => t.gameId == gid))))

/-- `removeTeam(teamId, actorId)`: requires the team to exist, its game to be
in `LOBBY` and the actor to be the game host; deletes the team (and its
membership rows), then re-numbers the game's remaining teams to
`order = index + 1` along the ascending-order read. -/
def removeTeam (db : DB) (teamId actorId : Nat) : (Except String Unit) × DB :=
  match db.teams.find? (fun t => t.id == teamId) with
  | none => (.error "Team not found", db)
  | some team =>
    match db.games.find? (fun g => g.id == team.gameId) with
    | none => (.error "Team not found", db)
    | some game =>
      if game.status ≠ GameStatus.LOBBY then
        (.error "Teams can only be managed while the game is in the lobby state", db)
      else if game.hostId ≠ actorId then
        (.error "Only the host can remove teams", db)
      else
        let afterDelete := db.teams.filter (fun t => ! (t.id == teamId))
        (.ok (), { db with
                     teams := renumberTeams afterDelete team.gameId,
                     teamMembers := db.teamMembers.filter
                       (fun m => ! (m.teamId == teamId)) })

/-- The body of the `prisma.$transaction` callback in `validateResponse`:
updates the response row, increments the team score when the delta is
nonzero, and marks an existing `ClueState` row `CORRECT`/`INCORRECT`.  A
missing target row makes the corresponding update throw, failing the whole
transaction (`none`). -/
def validateResponseTxn (db : DB) (responseId : Nat) (isCorrect : Bool) (scoreDelta : Int)
    (operatorId : Nat) (now : Nat) (respTeamId respClueId : Nat) :
    Option (TeamResponse × DB) :=
  match db.responses.find? (fun r => r.id == responseId) with
  | none => none
  | some resp0 =>
    let resp2 := { resp0 with isCorrect := some isCorrect, awardedValue := some scoreDelta,
                              validatedById := some operatorId, validatedAt := some now }
    let db1 := { db with responses := db.responses.map (fun r =>
      if r.id == responseId then
        { r with isCorrect := some isCorrect, awardedValue := some scoreDelta,
                 validatedById := some operatorId, validatedAt := some now }
      else r) }
    let teamStep : Option DB :=
      if scoreDelta = 0 then some db1
      else
        match db1.teams.find? (fun t => t.id == respTeamId) with
        | none => none
        | some _ => some { db1 with teams := db1.teams.map (fun t =>
            if t.id == respTeamId then { t with score := t.score + scoreDelta } else t) }
    match teamStep with
    | none => none
    | some db2 =>
      match db2.clueStates.find? (fun s => s.clueId == respClueId) with
      | none => some (resp2, db2)
      | some cs => some (resp2, { db2 with clueStates := db2.clueStates.map (fun s =>
          if s.id == cs.id then
            { s with state := if isCorrect then ClueBoardState.CORRECT
                              else ClueBoardState.INCORRECT,
                     resolvedById := some operatorId }
          else s) })

/-- `validateResponse(input)` from the response service: requires an existing
operator with role `OPERATOR` or `HOST` and an existing response (loaded with
its clue); computes `scoreDelta = awardedValue ?? (isCorrect ? clue.value :
-clue.value)` and runs the three writes as one transaction, returning the
original store on any failure inside it. -/
def validateResponse (db : DB) (responseId : Nat) (isCorrect : Bool)
    (awardedValue : Option Int) (operatorId : Nat) (now : Nat) :
    (Except String TeamResponse) × DB :=
  match db.users.find? (fun u => u.id == operatorId) with
  | none => (.error "Operator not found", db)
  | some operator =>
    if operator.role ≠ UserRole.OPERATOR ∧ operator.role ≠ UserRole.HOST then
      (.error "Only operators or hosts can validate responses", db)
    else
      match db.responses.find? (fun r => r.id == responseId) with
      | none => (.error "Response not found", db)
      | some response =>
        match db.clues.find? (fun c => c.id == response.clueId) with
        | none => (.error "Response not found", db)
        | some clue =>
          let scoreDelta := awardedValue.getD (if isCorrect then clue.value else -clue.value)
          match validateResponseTxn db responseId isCorrect scoreDelta operatorId now
              response.teamId response.clueId with
          | none => (.error "Transaction failed", db)
          | some (resp2, db2) => (.ok resp2, db2)

/-! ### A concrete store used to witness the claims

Game 1 is `IN_PROGRESS` with one team and a one-clue board; game 2 is a full
`LOBBY` (3 teams, `teamLimit = 3`); game 3 is a `LOBBY` with room left. -/

def sampleDB : DB :=
  { games :=
      [ { id := 1, title := "Trivia Night", hostId := 10, teamLimit := 4,
          status := GameStatus.IN_PROGRESS },
        { id := 2, title := "Full Lobby", hostId := 10, teamLimit := 3,
          status := GameStatus.LOBBY },
        { id := 3, title := "Open Lobby", hostId := 10, teamLimit := 2,
          status := GameStatus.LOBBY } ],
    teams :=
      [ { id := 1, gameId := 1, name := "Alpha", order := 1, score := 0 },
        { id := 2, gameId := 2, name := "Bravo", order := 1, score := 0 },
        { id := 3, gameId := 2, name := "Charlie", order := 2, score := 0 },
        { id := 4, gameId := 2, name := "Delta", order := 3, score := 0 },
        { id := 5, gameId := 3, name := "Echo", order := 1, score := 0 } ],
    teamMembers :=
      [ { id := 1, teamId := 1, userId := 5, isCaptain := true } ],
    users :=
      [ { id := 10, role := UserRole.HOST },
        { id := 5, role := UserRole.PLAYER },
        { id := 20, role := UserRole.OPERATOR },
        { id := 30, role := UserRole.PLAYER } ],
    rounds := [ { id := 1, gameId := 1, order := 1 } ],
    categories := [ { id := 1, roundId := 1, title := "History" } ],
    clues :=
      [ { id := 1, categoryId := 1, value := 100 },
        { id := 2, categoryId := 1, value := 200 } ],
    clueStates :=
      [ { id := 50, clueId := 2, gameId := 1, state := ClueBoardState.PENDING,
          pickedByTeamId := some 1, resolvedById := none } ],
    responses :=
      [ { id := 1, teamId := 1, clueId := 1, submittedById := 5,
          submittedAnswer := "1492", isCorrect := none, awardedValue := none,
          validatedById := none, validatedAt := none } ] }

/-! ### Generic lemmas about the store primitives -/

theorem find?_append_none {α : Type} (p : α → Bool) {l₁ : List α} (l₂ : List α)
    (h : l₁.find? p = none) : (l₁ ++ l₂).find? p = l₂.find? p := by
  induction l₁ with
  | nil => rfl
  | cons x xs ih =>
    cases hx : p x with
    | true => simp [List.find?_cons_of_pos _ hx] at h
    | false =>
      have hx2 : ¬ p x = true := by simp [hx]
      rw [List.find?_cons_of_neg _ hx2] at h
      rw [List.cons_append, List.find?_cons_of_neg _ hx2]
      exact ih h

theorem find?_map_comm {α : Type} (p : α → Bool) (f : α → α)
    (hpf : ∀ x, p (f x) = p x) (l : List α) :
    (l.map f).find? p = (l.find? p).map f := by
  induction l with
  | nil => rfl
  | cons x xs ih =>
    cases hx : p x with
    | true =>
      have : p (f x) = true := by rw [hpf]; exact hx
      simp [List.find?_cons_of_pos _ hx, List.find?_cons_of_pos _ this]
    | false =>
      have hfx : ¬ p (f x) = true := by rw [hpf]; simp [hx]
      have hx2 : ¬ p x = true := by simp [hx]
      rw [List.map_cons, List.find?_cons_of_neg _ hfx, List.find?_cons_of_neg _ hx2]
      exact ih

theorem find?_upd_self {α : Type} (p : α → Bool) (f : α → α)
    (hpf : ∀ x, p (f x) = p x) {l : List α} {a : α}
    (h : l.find? p = some a) : (l.map f).find? p = some (f a) := by
  rw [find?_map_comm p f hpf l, h]
  rfl

/-! ### C1: selectClue single-claim gate -/

/-- Claim C1: with the clue loadable in an `IN_PROGRESS` game, a team of the
same game and a member actor, `selectClue` on a clue with no existing
`ClueState` row creates one with `state = PENDING` and `pickedByTeamId` the
calling team; afterwards every `selectClue` for the same clue, by any team
meeting the call preconditions, fails with "Clue has already been taken",
until a reset returns the state to `AVAILABLE`, after which the clue can be
selected again. -/
theorem claim_C1_selectClue_single_claim_gate
    (db : DB) (clueId teamId actorId fresh : Nat) (ctx : ClueWithContext)
    (team : Team)
    (hclue : loadClue db clueId = .ok ctx)
    (hprog : ctx.game.status = GameStatus.IN_PROGRESS)
    (hteam : db.teams.find? (fun t => t.id == teamId) = some team)
    (hsame : team.gameId = ctx.round.gameId)
    (hmem : (db.teamMembers.find? (fun m => m.teamId == teamId && m.userId == actorId)).isSome)
    (hnostate : db.clueStates.find? (fun s => s.clueId == clueId) = none) :
    ∃ st db2,
      selectClue db clueId teamId actorId fresh = (.ok st, db2) ∧
      st.state = ClueBoardState.PENDING ∧
      st.pickedByTeamId = some teamId ∧
      db2.clueStates.find? (fun s => s.clueId == clueId) = some st ∧
      (∀ teamId2 actorId2 fresh2 team2,
        db.teams.find? (fun t => t.id == teamId2) = some team2 →
        team2.gameId = ctx.round.gameId →
        (db.teamMembers.find? (fun m => m.teamId == teamId2 && m.userId == actorId2)).isSome →
        selectClue db2 clueId teamId2 actorId2 fresh2 =
          (.error "Clue has already been taken", db2)) ∧
      (∀ resetActorId fresh2,
        (db.users.find? (fun u => u.id == resetActorId)).isSome →
        ∃ st3 db3,
          resetClueState db2 clueId resetActorId fresh2 = (.ok st3, db3) ∧
          st3.state = ClueBoardState.AVAILABLE ∧
          ∀ fresh3, ∃ st4,
            (selectClue db3 clueId teamId actorId fresh3).1 = .ok st4 ∧
            st4.state = ClueBoardState.PENDING ∧
            st4.pickedByTeamId = some teamId) := by
  obtain ⟨m, hm⟩ := Option.isSome_iff_exists.mp hmem
  let stv : ClueState :=
    { id := fresh, clueId := clueId, gameId := ctx.round.gameId,
      state := ClueBoardState.PENDING, pickedByTeamId := some teamId,
      resolvedById := none }
  let db2v : DB := { db with clueStates := db.clueStates ++ [stv] }
  have hst2 : db2v.clueStates.find? (fun s => s.clueId == clueId) = some stv := by
    show (db.clueStates ++ [stv]).find? _ = some stv
    rw [find?_append_none _ _ hnostate]
    simp [stv]
  refine ⟨stv, db2v, ?_, rfl, rfl, hst2, ?_, ?_⟩
  · simp only [selectClue, selectClueCore, hclue, hprog, hteam, hsame, hm, hnostate]
    simp [stv, db2v]
  · intro teamId2 actorId2 fresh2 team2 hteam2 hsame2 hmem2
    obtain ⟨m2, hm2⟩ := Option.isSome_iff_exists.mp hmem2
    have hclue2 : loadClue db2v clueId = .ok ctx := hclue
    have hteam2v : db2v.teams.find? (fun t => t.id == teamId2) = some team2 := hteam2
    have hm2v : db2v.teamMembers.find?
        (fun m => m.teamId == teamId2 && m.userId == actorId2) = some m2 := hm2
    simp only [selectClue, selectClueCore, hclue2, hprog, hteam2v, hsame2, hm2v, hst2]
    simp [stv]
  · intro resetActorId fresh2 huser
    obtain ⟨u, hu⟩ := Option.isSome_iff_exists.mp huser
    have hclue2 : loadClue db2v clueId = .ok ctx := hclue
    have hu2 : db2v.users.find? (fun u => u.id == resetActorId) = some u := hu
    refine ⟨{ id := fresh, clueId := clueId, gameId := ctx.round.gameId,
              state := ClueBoardState.AVAILABLE,
              pickedByTeamId := none, resolvedById := none },
            { db2v with clueStates := db2v.clueStates.map (fun s =>
              if s.id == stv.id then
                { s with state := ClueBoardState.AVAILABLE,
                         pickedByTeamId := none, resolvedById := none }
              else s) }, ?_, rfl, ?_⟩
    · simp only [resetClueState, hclue2, hu2, hst2]
    · intro fresh3
      have hclue3 : loadClue
          { db2v with clueStates := db2v.clueStates.map (fun s =>
            if s.id == stv.id then
              { s with state := ClueBoardState.AVAILABLE,
                       pickedByTeamId := none, resolvedById := none }
            else s) } clueId = .ok ctx := hclue
      have hmapped : (db2v.clueStates.map (fun s =>
            if s.id == stv.id then
              { s with state := ClueBoardState.AVAILABLE,
                       pickedByTeamId := none, resolvedById := none }
            else s)).find? (fun s => s.clueId == clueId) =
          some { id := fresh, clueId := clueId, gameId := ctx.round.gameId,
                 state := ClueBoardState.AVAILABLE, pickedByTeamId := none,
                 resolvedById := none } := by
        show ((db.clueStates ++ [stv]).map _).find? _ = _
        rw [List.map_append, find?_append_none]
        · simp [stv]
        · rw [find?_map_comm (fun s => s.clueId == clueId) _ ?_ db.clueStates, hnostate]
          · rfl
          · intro x
            by_cases hx : (x.id == stv.id) = true <;> simp [hx]
      refine ⟨stv, ?_, rfl, rfl⟩
      simp only [selectClue, selectClueCore, hclue3, hprog, hteam, hsame, hm, hmapped]
      simp [stv]

/-- Witness for C1 at the sample store: team 1 selects clue 1 of the running
game and the created state is `PENDING` for team 1. -/
theorem claim_C1_witness :
    ∃ st db2, selectClue sampleDB 1 1 5 99 = (.ok st, db2) ∧
      st.state = ClueBoardState.PENDING ∧ st.pickedByTeamId = some 1 := by
  obtain ⟨st, db2, h1, h2, h3, _⟩ :=
    claim_C1_selectClue_single_claim_gate sampleDB 1 1 5 99
      ⟨{ id := 1, categoryId := 1, value := 100 },
       { id := 1, roundId := 1, title := "History" },
       { id := 1, gameId := 1, order := 1 },
       { id := 1, title := "Trivia Night", hostId := 10, teamLimit := 4,
         status := GameStatus.IN_PROGRESS }⟩
      { id := 1, gameId := 1, name := "Alpha", order := 1, score := 0 }
      rfl rfl rfl rfl (by decide) rfl
  exact ⟨st, db2, h1, h2, h3⟩

/-! ### C4: startGame success condition -/

/-- Counterexample to C4 as stated: game 2 of the sample store is in `LOBBY`
with three teams, yet `startGame` called by user 30 (not the host) fails, so
"start succeeds iff status = LOBBY and team count ≥ 1" is false. -/
theorem claim_C4_counterexample :
    ¬ ((startGame sampleDB 2 30).1.isOk = true ↔
        ((sampleDB.games.find? (fun x => x.id == 2)).all
            (fun g => g.status == GameStatus.LOBBY) = true ∧
          1 ≤ (sampleDB.teams.filter (fun t => t.gameId == 2)).length)) := by
  decide

/-- Claim C4 (amended): for a game found in the store, `startGame` succeeds
iff the actor is the game's host, the status is `LOBBY` and the team count is
at least 1; on success both the returned game and the stored row have status
`IN_PROGRESS`. -/
theorem claim_C4_startGame_start_iff
    (db : DB) (gameId actorId : Nat) (g : Game)
    (hfind : db.games.find? (fun x => x.id == gameId) = some g) :
    ((startGame db gameId actorId).1.isOk = true ↔
      (g.hostId = actorId ∧ g.status = GameStatus.LOBBY ∧
        1 ≤ (db.teams.filter (fun t => t.gameId == gameId)).length)) ∧
    (∀ g2, (startGame db gameId actorId).1 = .ok g2 →
      g2.status = GameStatus.IN_PROGRESS) ∧
    ((startGame db gameId actorId).1.isOk = true →
      (startGame db gameId actorId).2.games.find? (fun x => x.id == gameId) =
        some { g with status := GameStatus.IN_PROGRESS }) := by
  have hg : (g.id == gameId) = true := by
    have := List.find?_some hfind
    simpa using this
  by_cases h1 : g.hostId = actorId
  · by_cases h2 : g.status = GameStatus.LOBBY
    · by_cases h3 : (db.teams.filter (fun t => t.gameId == gameId)).length = 0
      · have hres : startGame db gameId actorId =
            (.error "Add at least one team before starting the game", db) := by
          simp only [startGame, hfind]
          rw [if_neg (fun hne => hne h1), if_neg (fun hne => hne h2), if_pos h3]
        refine ⟨?_, ?_, ?_⟩
        · rw [hres]; simp [Except.isOk, Except.toBool, h3]
        · rw [hres]; intro g2 hh; exact Except.noConfusion hh
        · rw [hres]; intro hok; simp [Except.isOk, Except.toBool] at hok
      · have hrow : (db.games.map (fun x =>
            if x.id == gameId then { x with status := GameStatus.IN_PROGRESS }
            else x)).find? (fun x => x.id == gameId) =
            some { g with status := GameStatus.IN_PROGRESS } := by
          have hgid : g.id = gameId := by simpa using hg
          rw [find?_map_comm (fun x => x.id == gameId) _ ?_ db.games, hfind]
          · simp [hgid]
          · intro x
            by_cases hx : (x.id == gameId) = true <;> simp [hx]
        have hres : startGame db gameId actorId =
            (.ok { g with status := GameStatus.IN_PROGRESS },
             { db with games := db.games.map (fun x =>
               if x.id == gameId then { x with status := GameStatus.IN_PROGRESS }
               else x) }) := by
          simp only [startGame, hfind]
          rw [if_neg (fun hne => hne h1), if_neg (fun hne => hne h2), if_neg h3]
        refine ⟨?_, ?_, ?_⟩
        · rw [hres]
          simp [Except.isOk, Except.toBool, h1, h2]
          exact Nat.pos_of_ne_zero h3
        · rw [hres]
          intro g2 hh
          injection hh with h
          exact h ▸ rfl
        · rw [hres]
          intro _
          exact hrow
    · have hres : startGame db gameId actorId =
          (.error "Game has already started", db) := by
        simp only [startGame, hfind]
        rw [if_neg (fun hne => hne h1), if_pos h2]
      refine ⟨?_, ?_, ?_⟩
      · rw [hres]; simp [Except.isOk, Except.toBool, h2]
      · rw [hres]; intro g2 hh; exact Except.noConfusion hh
      · rw [hres]; intro hok; simp [Except.isOk, Except.toBool] at hok
  · have hres : startGame db gameId actorId =
        (.error "Only the host can perform this action", db) := by
      simp only [startGame, hfind]
      rw [if_pos h1]
    refine ⟨?_, ?_, ?_⟩
    · rw [hres]; simp [Except.isOk, Except.toBool, h1]
    · rw [hres]; intro g2 hh; exact Except.noConfusion hh
    · rw [hres]; intro hok; simp [Except.isOk, Except.toBool] at hok

/-- Witness for C4 at the sample store: the host starts game 2
successfully. -/
theorem claim_C4_witness : (startGame sampleDB 2 10).1.isOk = true := by
  have h := (claim_C4_startGame_start_iff sampleDB 2 10
    { id := 2, title := "Full Lobby", hostId := 10, teamLimit := 3,
      status := GameStatus.LOBBY } rfl).1
  exact h.mpr ⟨rfl, rfl, by decide⟩

/-! ### C7: resetClueState always yields a cleared AVAILABLE state -/

theorem loadClue_ok_clue_found {db : DB} {clueId : Nat} {ctx : ClueWithContext}
    (h : loadClue db clueId = .ok ctx) :
    db.clues.find? (fun c => c.id == clueId) = some ctx.clue := by
  cases hc : db.clues.find? (fun c => c.id == clueId) with
  | none =>
    simp only [loadClue, hc] at h
    exact Except.noConfusion h
  | some clue =>
    cases hcat : db.categories.find? (fun c => c.id == clue.categoryId) with
    | none =>
      simp only [loadClue, hc, hcat] at h
      exact Except.noConfusion h
    | some cat =>
      cases hrnd : db.rounds.find? (fun r => r.id == cat.roundId) with
      | none =>
        simp only [loadClue, hc, hcat, hrnd] at h
        exact Except.noConfusion h
      | some rnd =>
        cases hgame : db.games.find? (fun g => g.id == rnd.gameId) with
        | none =>
          simp only [loadClue, hc, hcat, hrnd, hgame] at h
          exact Except.noConfusion h
        | some game =>
          simp only [loadClue, hc, hcat, hrnd, hgame] at h
          injection h with h2
          subst h2
          rfl

/-- Claim C7: for an existing clue and an existing actor, `resetClueState`
returns a state with `state = AVAILABLE`, `pickedByTeamId = none` and
`resolvedById = none`, and stores that row, whether or not a `ClueState` row
existed before and whatever its prior state was. -/
theorem claim_C7_resetClueState_always_available
    (db : DB) (clueId actorId fresh : Nat) (ctx : ClueWithContext)
    (hclue : loadClue db clueId = .ok ctx)
    (huser : (db.users.find? (fun u => u.id == actorId)).isSome = true) :
    ∃ st db2, resetClueState db clueId actorId fresh = (.ok st, db2) ∧
      st.state = ClueBoardState.AVAILABLE ∧
      st.pickedByTeamId = none ∧ st.resolvedById = none ∧
      db2.clueStates.find? (fun s => s.clueId == clueId) = some st := by
  obtain ⟨u, hu⟩ := Option.isSome_iff_exists.mp huser
  cases hst : db.clueStates.find? (fun s => s.clueId == clueId) with
  | none =>
    refine ⟨{ id := fresh, clueId := clueId, gameId := ctx.round.gameId,
              state := ClueBoardState.AVAILABLE, pickedByTeamId := none,
              resolvedById := none },
            { db with clueStates := db.clueStates ++
              [{ id := fresh, clueId := clueId, gameId := ctx.round.gameId,
                 state := ClueBoardState.AVAILABLE, pickedByTeamId := none,
                 resolvedById := none }] }, ?_, rfl, rfl, rfl, ?_⟩
    · simp only [resetClueState, hclue, hu, hst]
    · show (db.clueStates ++ _).find? _ = _
      rw [find?_append_none _ _ hst]
      simp
  | some st0 =>
    have hkey := List.find?_some hst
    refine ⟨{ st0 with state := ClueBoardState.AVAILABLE,
                       pickedByTeamId := none,
                       resolvedById := none },
            { db with clueStates := db.clueStates.map (fun s =>
              if s.id == st0.id then
                { s with state := ClueBoardState.AVAILABLE,
                         pickedByTeamId := none, resolvedById := none }
              else s) }, ?_, rfl, rfl, rfl, ?_⟩
    · simp only [resetClueState, hclue, hu, hst]
    · show (db.clueStates.map _).find? _ = _
      rw [find?_map_comm (fun s => s.clueId == clueId) _ ?_ db.clueStates, hst]
      · simp
      · intro x
        by_cases hx : (x.id == st0.id) = true <;> simp [hx]

/-- Witness for C7 at the sample store: resetting clue 2 (whose state row is
`PENDING` and picked by team 1) yields a cleared `AVAILABLE` row. -/
theorem claim_C7_witness :
    ∃ st db2, resetClueState sampleDB 2 20 77 = (.ok st, db2) ∧
      st.state = ClueBoardState.AVAILABLE ∧
      st.pickedByTeamId = none ∧ st.resolvedById = none := by
  obtain ⟨st, db2, h1, h2, h3, h4, _⟩ :=
    claim_C7_resetClueState_always_available sampleDB 2 20 77
      ⟨{ id := 2, categoryId := 1, value := 200 },
       { id := 1, roundId := 1, title := "History" },
       { id := 1, gameId := 1, order := 1 },
       { id := 1, title := "Trivia Night", hostId := 10, teamLimit := 4,
         status := GameStatus.IN_PROGRESS }⟩
      rfl rfl
  exact ⟨st, db2, h1, h2, h3, h4⟩

/-! ### C8: updateClueState is the permissive operator-override path -/

/-- Claim C8: `updateClueState` succeeds iff the clue exists, a user with id
`resolvedById` exists (no role requirement) and a `ClueState` row for the
clue already exists; on success it overwrites `state` and `resolvedById`
with the given values (the prior state is unconstrained, as `state` is
universally quantified) and it never creates a new `ClueState` row.  The
hypothesis `hfk` states that the clue row's foreign-key chain (category,
round, game) resolves, which a referentially intact store guarantees. -/
theorem claim_C8_updateClueState_iff
    (db : DB) (clueId : Nat) (state : ClueBoardState) (resolvedById : Nat)
    (hfk : (db.clues.find? (fun c => c.id == clueId)).isSome = true →
           (loadClue db clueId).isOk = true) :
    ((updateClueState db clueId state resolvedById).1.isOk = true ↔
      ((db.clues.find? (fun c => c.id == clueId)).isSome = true ∧
       (db.users.find? (fun u => u.id == resolvedById)).isSome = true ∧
       (db.clueStates.find? (fun s => s.clueId == clueId)).isSome = true)) ∧
    (∀ st2, (updateClueState db clueId state resolvedById).1 = .ok st2 →
      st2.state = state ∧ st2.resolvedById = some resolvedById) ∧
    ((updateClueState db clueId state resolvedById).2.clueStates.length =
      db.clueStates.length) := by
  cases hclue : loadClue db clueId with
  | error e =>
    have hnoclue : db.clues.find? (fun c => c.id == clueId) = none := by
      cases hc : db.clues.find? (fun c => c.id == clueId) with
      | none => rfl
      | some c =>
        have h2 := hfk (by rw [hc]; rfl)
        rw [hclue] at h2
        simp [Except.isOk, Except.toBool] at h2
    have hres : updateClueState db clueId state resolvedById = (.error e, db) := by
      simp only [updateClueState, hclue]
    refine ⟨?_, ?_, ?_⟩
    · rw [hres]
      constructor
      · intro h; simp [Except.isOk, Except.toBool] at h
      · rintro ⟨h1, -, -⟩; rw [hnoclue] at h1; simp at h1
    · rw [hres]; intro st2 hh; exact Except.noConfusion hh
    · rw [hres]
  | ok ctx =>
    have hcfound := loadClue_ok_clue_found hclue
    cases hu : db.users.find? (fun u => u.id == resolvedById) with
    | none =>
      have hres : updateClueState db clueId state resolvedById =
          (.error "Operator not found", db) := by
        simp only [updateClueState, hclue, hu]
      refine ⟨?_, ?_, ?_⟩
      · rw [hres]
        constructor
        · intro h; simp [Except.isOk, Except.toBool] at h
        · rintro ⟨-, h2, -⟩; simp at h2
      · rw [hres]; intro st2 hh; exact Except.noConfusion hh
      · rw [hres]
    | some u =>
      cases hst : db.clueStates.find? (fun s => s.clueId == clueId) with
      | none =>
        have hres : updateClueState db clueId state resolvedById =
            (.error "Clue state not found", db) := by
          simp only [updateClueState, hclue, hu, hst]
        refine ⟨?_, ?_, ?_⟩
        · rw [hres]
          constructor
          · intro h; simp [Except.isOk, Except.toBool] at h
          · rintro ⟨-, -, h3⟩; simp at h3
        · rw [hres]; intro st2 hh; exact Except.noConfusion hh
        · rw [hres]
      | some st0 =>
        have hres : updateClueState db clueId state resolvedById =
            (.ok { st0 with state := state, resolvedById := some resolvedById },
             { db with clueStates := db.clueStates.map (fun s =>
               if s.id == st0.id then
                 { s with state := state, resolvedById := some resolvedById }
               else s) }) := by
          simp only [updateClueState, hclue, hu, hst]
        refine ⟨?_, ?_, ?_⟩
        · rw [hres]
          constructor
          · intro _
            exact ⟨by rw [hcfound]; rfl, rfl, rfl⟩
          · intro _; rfl
        · rw [hres]
          intro st2 hh
          injection hh with h2
          subst h2
          exact ⟨rfl, rfl⟩
        · rw [hres]
          show (db.clueStates.map _).length = _
          simp

/-- Witness for C8 at the sample store: an existing user overwrites clue 2's
state row (currently `PENDING`) directly to `CORRECT`. -/
theorem claim_C8_witness :
    (updateClueState sampleDB 2 ClueBoardState.CORRECT 20).1.isOk = true := by
  have h := (claim_C8_updateClueState_iff sampleDB 2 ClueBoardState.CORRECT 20
    (fun _ => rfl)).1
  exact h.mpr ⟨rfl, rfl, rfl⟩

/-! ### C5: createTeam capacity check and order assignment -/

/-- Claim C5: in a `LOBBY` game with an existing actor and a non-blank name,
`createTeam` fails with the team-limit error when the current team count
equals `teamLimit`, and succeeds with `order = count + 1` when the count is
strictly below `teamLimit`. -/
theorem claim_C5_createTeam_limit_and_order
    (db : DB) (gameId : Nat) (name : String) (actorId : Nat) (makeCaptain : Bool)
    (freshTeamId freshMemberId : Nat) (game : Game)
    (hname : ¬ jsTrim name = "")
    (hgame : db.games.find? (fun g => g.id == gameId) = some game)
    (hactor : (db.users.find? (fun u => u.id == actorId)).isSome = true)
    (hlobby : game.status = GameStatus.LOBBY) :
    (game.teamLimit = ((db.teams.filter (fun t => t.gameId == gameId)).length : Int) →
      (createTeam db gameId name actorId makeCaptain freshTeamId freshMemberId).1 =
        .error "Team limit reached for this game") ∧
    (((db.teams.filter (fun t => t.gameId == gameId)).length : Int) < game.teamLimit →
      ∃ team db2,
        createTeam db gameId name actorId makeCaptain freshTeamId freshMemberId =
          (.ok team, db2) ∧
        team.order = (db.teams.filter (fun t => t.gameId == gameId)).length + 1 ∧
        db2.teams = db.teams ++ [team]) := by
  obtain ⟨u, hu⟩ := Option.isSome_iff_exists.mp hactor
  constructor
  · intro hfull
    have hcond : game.teamLimit ≤
        ((db.teams.filter (fun t => t.gameId == gameId)).length : Int) :=
      le_of_eq hfull
    simp only [createTeam, if_neg hname, hgame, hu]
    rw [if_neg (fun hne => hne hlobby), if_pos hcond]
  · intro hroom
    have hcond : ¬ game.teamLimit ≤
        ((db.teams.filter (fun t => t.gameId == gameId)).length : Int) :=
      not_le_of_lt hroom
    refine ⟨{ id := freshTeamId, gameId := gameId, name := jsTrim name,
              order := (db.teams.filter (fun t => t.gameId == gameId)).length + 1,
              score := 0 },
            { db with teams := db.teams ++
                        [{ id := freshTeamId, gameId := gameId, name := jsTrim name,
                           order := (db.teams.filter
                             (fun t => t.gameId == gameId)).length + 1,
                           score := 0 }],
                      teamMembers := db.teamMembers ++
                        (if makeCaptain then
                          [({ id := freshMemberId, teamId := freshTeamId,
                              userId := actorId, isCaptain := true } : TeamMember)]
                        else []) }, ?_, rfl, rfl⟩
    simp only [createTeam, if_neg hname, hgame, hu]
    rw [if_neg (fun hne => hne hlobby), if_neg hcond]

/-- Witness for C5 at the sample store: game 2 is at its limit (3 teams,
`teamLimit = 3`) so creation fails; game 3 has room (1 team,
`teamLimit = 2`) so creation succeeds with order 2. -/
theorem claim_C5_witness :
    ((createTeam sampleDB 2 "Foxtrot" 10 true 6 2).1 =
      .error "Team limit reached for this game") ∧
    (∃ team db2, createTeam sampleDB 3 "Foxtrot" 10 true 6 2 = (.ok team, db2) ∧
      team.order = 2) := by
  constructor
  · exact (claim_C5_createTeam_limit_and_order sampleDB 2 "Foxtrot" 10 true 6 2
      { id := 2, title := "Full Lobby", hostId := 10, teamLimit := 3,
        status := GameStatus.LOBBY }
      (by decide) rfl rfl rfl).1 (by decide)
  · obtain ⟨team, db2, h1, h2, -⟩ :=
      (claim_C5_createTeam_limit_and_order sampleDB 3 "Foxtrot" 10 true 6 2
        { id := 3, title := "Open Lobby", hostId := 10, teamLimit := 2,
          status := GameStatus.LOBBY }
        (by decide) rfl rfl rfl).2 (by decide)
    exact ⟨team, db2, h1, h2⟩

/-! ### C10: createGame stores teamLimit unchecked -/

/-- Claim C10: `createGame` validates only that the trimmed title is
non-blank; any `teamLimit` (including 0 and negative values) is stored
unchecked, while `updateGameSettings` rejects an effective team limit below
1 — so the bound is enforced only on update, not at creation. -/
theorem claim_C10_createGame_teamLimit_unchecked
    (db : DB) (hostId : Nat) (title : String) (tl : Int) (freshGameId : Nat)
    (hname : ¬ jsTrim title = "") :
    (∃ game db2, createGame db hostId title (some tl) freshGameId = (.ok game, db2) ∧
      game.teamLimit = tl ∧ game.status = GameStatus.LOBBY ∧
      db2.games = db.games ++ [game]) ∧
    (∀ gameId actorId g, tl < 1 →
      db.games.find? (fun x => x.id == gameId) = some g →
      g.hostId = actorId → g.status = GameStatus.LOBBY →
      (updateGameSettings db gameId none (some tl) actorId).1 =
        .error "Team limit must be at least 1") := by
  constructor
  · refine ⟨{ id := freshGameId, title := jsTrim title, hostId := hostId,
              teamLimit := tl, status := GameStatus.LOBBY },
            { db with games := db.games ++
                        [{ id := freshGameId, title := jsTrim title,
                           hostId := hostId, teamLimit := tl,
                           status := GameStatus.LOBBY }] }, ?_, rfl, rfl, rfl⟩
    simp only [createGame, if_neg hname, Option.getD_some]
  · intro gameId actorId g hlt hfind hhost hlobby
    simp only [updateGameSettings, hfind]
    rw [if_neg (fun hne => hne hhost), if_neg (fun hne => hne hlobby), if_pos]
    exact hlt

/-- Witness for C10 at the sample store: a game is created with
`teamLimit = -5`, while updating game 2's settings to `teamLimit = -5` is
rejected. -/
theorem claim_C10_witness :
    (∃ game db2, createGame sampleDB 10 "Unchecked" (some (-5)) 9 = (.ok game, db2) ∧
      game.teamLimit = -5) ∧
    (updateGameSettings sampleDB 2 none (some (-5)) 10).1 =
      .error "Team limit must be at least 1" := by
  have h := claim_C10_createGame_teamLimit_unchecked sampleDB 10 "Unchecked" (-5) 9
    (by decide)
  obtain ⟨⟨game, db2, h1, h2, -, -⟩, h3⟩ := h
  exact ⟨⟨game, db2, h1, h2⟩, h3 2 10
    { id := 2, title := "Full Lobby", hostId := 10, teamLimit := 3,
      status := GameStatus.LOBBY } (by decide) rfl rfl rfl⟩

/-! ### validateResponse: shared success lemma -/

theorem validateResponseTxn_eq
    (db : DB) (responseId : Nat) (isCorrect : Bool) (delta : Int)
    (operatorId now rTeamId rClueId : Nat) (response : TeamResponse) (team : Team)
    (hresp : db.responses.find? (fun r => r.id == responseId) = some response)
    (hteam : db.teams.find? (fun t => t.id == rTeamId) = some team) :
    ∃ db2,
      validateResponseTxn db responseId isCorrect delta operatorId now rTeamId rClueId =
        some ({ response with isCorrect := some isCorrect, awardedValue := some delta,
                              validatedById := some operatorId,
                              validatedAt := some now }, db2) ∧
      db2.responses.find? (fun r => r.id == responseId) =
        some { response with isCorrect := some isCorrect, awardedValue := some delta,
                             validatedById := some operatorId, validatedAt := some now } ∧
      db2.teams.find? (fun t => t.id == rTeamId) =
        some { team with score := team.score + delta } ∧
      db2.users = db.users ∧ db2.clues = db.clues ∧
      (∀ cs, db.clueStates.find? (fun s => s.clueId == rClueId) = some cs →
        db2.clueStates.find? (fun s => s.clueId == rClueId) =
          some { cs with state := if isCorrect then ClueBoardState.CORRECT
                                  else ClueBoardState.INCORRECT,
                         resolvedById := some operatorId }) := by
  have hkeyR : response.id = responseId := by simpa using List.find?_some hresp
  have hkeyT : team.id = rTeamId := by simpa using List.find?_some hteam
  have hfindR : (db.responses.map (fun r =>
      if r.id == responseId then
        { r with isCorrect := some isCorrect, awardedValue := some delta,
                 validatedById := some operatorId, validatedAt := some now }
      else r)).find? (fun r => r.id == responseId) =
      some { response with isCorrect := some isCorrect, awardedValue := some delta,
                           validatedById := some operatorId, validatedAt := some now } := by
    rw [find?_map_comm (fun r => r.id == responseId) _ ?_ db.responses, hresp]
    · simp [hkeyR]
    · intro x
      by_cases hx : (x.id == responseId) = true <;> simp [hx]
  have hfindT : (db.teams.map (fun t =>
      if t.id == rTeamId then { t with score := t.score + delta } else t)).find?
      (fun t => t.id == rTeamId) = some { team with score := team.score + delta } := by
    rw [find?_map_comm (fun t => t.id == rTeamId) _ ?_ db.teams, hteam]
    · simp [hkeyT]
    · intro x
      by_cases hx : (x.id == rTeamId) = true <;> simp [hx]
  by_cases hz : delta = 0
  · cases hcs : db.clueStates.find? (fun s => s.clueId == rClueId) with
    | none =>
      let db2v : DB :=
        { db with
            responses := db.responses.map (fun r =>
              if r.id == responseId then
                { r with isCorrect := some isCorrect, awardedValue := some delta,
                         validatedById := some operatorId, validatedAt := some now }
              else r) }
      refine ⟨db2v, ?_, hfindR, ?_, rfl, rfl, ?_⟩
      · simp only [validateResponseTxn, hresp]
        rw [if_pos hz]
        simp only [hcs]
      · show db.teams.find? _ = _
        rw [hteam, hz]
        simp
      · intro cs2 h2
        exact Option.noConfusion h2
    | some cs =>
      have hkeyS : cs.id = cs.id := rfl
      let db2v : DB :=
        { db with
            responses := db.responses.map (fun r =>
              if r.id == responseId then
                { r with isCorrect := some isCorrect, awardedValue := some delta,
                         validatedById := some operatorId, validatedAt := some now }
              else r),
            clueStates := db.clueStates.map (fun s =>
              if s.id == cs.id then
                { s with state := if isCorrect then ClueBoardState.CORRECT
                                  else ClueBoardState.INCORRECT,
                         resolvedById := some operatorId }
              else s) }
      refine ⟨db2v, ?_, hfindR, ?_, rfl, rfl, ?_⟩
      · simp only [validateResponseTxn, hresp]
        rw [if_pos hz]
        simp only [hcs]
      · show db.teams.find? _ = _
        rw [hteam, hz]
        simp
      · intro cs2 h2
        injection h2 with h3
        subst h3
        have hfound := find?_upd_self (fun (s : ClueState) => s.clueId == rClueId)
          (fun (s : ClueState) => if s.id == cs.id then
            { s with state := if isCorrect then ClueBoardState.CORRECT
                              else ClueBoardState.INCORRECT,
                     resolvedById := some operatorId }
          else s)
          (fun (x : ClueState) => by
            by_cases hx : (x.id == cs.id) = true <;> simp [hx]) hcs
        show (db.clueStates.map _).find? _ = _
        simpa using hfound
  · cases hcs : db.clueStates.find? (fun s => s.clueId == rClueId) with
    | none =>
      let db2v : DB :=
        { db with
            responses := db.responses.map (fun r =>
              if r.id == responseId then
                { r with isCorrect := some isCorrect, awardedValue := some delta,
                         validatedById := some operatorId, validatedAt := some now }
              else r),
            teams := db.teams.map (fun t =>
              if t.id == rTeamId then { t with score := t.score + delta } else t) }
      refine ⟨db2v, ?_, hfindR, hfindT, rfl, rfl, ?_⟩
      · simp only [validateResponseTxn, hresp]
        rw [if_neg hz]
        simp only [hteam, hcs]
      · intro cs2 h2
        exact Option.noConfusion h2
    | some cs =>
      let db2v : DB :=
        { db with
            responses := db.responses.map (fun r =>
              if r.id == responseId then
                { r with isCorrect := some isCorrect, awardedValue := some delta,
                         validatedById := some operatorId, validatedAt := some now }
              else r),
            teams := db.teams.map (fun t =>
              if t.id == rTeamId then { t with score := t.score + delta } else t),
            clueStates := db.clueStates.map (fun s =>
              if s.id == cs.id then
                { s with state := if isCorrect then ClueBoardState.CORRECT
                                  else ClueBoardState.INCORRECT,
                         resolvedById := some operatorId }
              else s) }
      refine ⟨db2v, ?_, hfindR, hfindT, rfl, rfl, ?_⟩
      · simp only [validateResponseTxn, hresp]
        rw [if_neg hz]
        simp only [hteam, hcs]
      · intro cs2 h2
        injection h2 with h3
        subst h3
        have hfound := find?_upd_self (fun (s : ClueState) => s.clueId == rClueId)
          (fun (s : ClueState) => if s.id == cs.id then
            { s with state := if isCorrect then ClueBoardState.CORRECT
                              else ClueBoardState.INCORRECT,
                     resolvedById := some operatorId }
          else s)
          (fun (x : ClueState) => by
            by_cases hx : (x.id == cs.id) = true <;> simp [hx]) hcs
        show (db.clueStates.map _).find? _ = _
        simpa using hfound

theorem validateResponse_ok
    (db : DB) (responseId : Nat) (isCorrect : Bool) (awardedValue : Option Int)
    (operatorId now : Nat) (op : User) (response : TeamResponse) (clue : Clue) (team : Team)
    (hop : db.users.find? (fun u => u.id == operatorId) = some op)
    (hrole : op.role = UserRole.OPERATOR ∨ op.role = UserRole.HOST)
    (hresp : db.responses.find? (fun r => r.id == responseId) = some response)
    (hclue : db.clues.find? (fun c => c.id == response.clueId) = some clue)
    (hteam : db.teams.find? (fun t => t.id == response.teamId) = some team) :
    ∃ db2,
      validateResponse db responseId isCorrect awardedValue operatorId now =
        (.ok { response with
                 isCorrect := some isCorrect,
                 awardedValue := some (awardedValue.getD
                   (if isCorrect then clue.value else -clue.value)),
                 validatedById := some operatorId,
                 validatedAt := some now }, db2) ∧
      db2.responses.find? (fun r => r.id == responseId) =
        some { response with
                 isCorrect := some isCorrect,
                 awardedValue := some (awardedValue.getD
                   (if isCorrect then clue.value else -clue.value)),
                 validatedById := some operatorId,
                 validatedAt := some now } ∧
      db2.teams.find? (fun t => t.id == response.teamId) =
        some { team with
                 score := team.score + awardedValue.getD
                   (if isCorrect then clue.value else -clue.value) } ∧
      db2.users = db.users ∧ db2.clues = db.clues := by
  have hrcond : ¬ (op.role ≠ UserRole.OPERATOR ∧ op.role ≠ UserRole.HOST) := by
    rcases hrole with h | h <;> simp [h]
  obtain ⟨db2, htxn, h1, h2, h3, h4, -⟩ :=
    validateResponseTxn_eq db responseId isCorrect
      (awardedValue.getD (if isCorrect then clue.value else -clue.value))
      operatorId now response.teamId response.clueId response team hresp hteam
  refine ⟨db2, ?_, h1, h2, h3, h4⟩
  simp only [validateResponse, hop]
  rw [if_neg hrcond]
  simp only [hresp, hclue, htxn]

/-! ### C2: validateResponse score delta -/

/-- Claim C2: for a call by an existing user with role `OPERATOR` or `HOST`
on an existing response (whose clue and team exist), the score delta equals
`awardedValue` when given, else `+clue.value` when correct, else
`-clue.value`; the team's score is incremented by exactly that delta and the
response row is updated with `isCorrect` and `awardedValue = delta`. -/
theorem claim_C2_validateResponse_scoring
    (db : DB) (responseId : Nat) (isCorrect : Bool) (awardedValue : Option Int)
    (operatorId now : Nat) (op : User) (response : TeamResponse) (clue : Clue) (team : Team)
    (hop : db.users.find? (fun u => u.id == operatorId) = some op)
    (hrole : op.role = UserRole.OPERATOR ∨ op.role = UserRole.HOST)
    (hresp : db.responses.find? (fun r => r.id == responseId) = some response)
    (hclue : db.clues.find? (fun c => c.id == response.clueId) = some clue)
    (hteam : db.teams.find? (fun t => t.id == response.teamId) = some team) :
    ∃ resp2 db2,
      validateResponse db responseId isCorrect awardedValue operatorId now =
        (.ok resp2, db2) ∧
      resp2.isCorrect = some isCorrect ∧
      resp2.awardedValue = some (awardedValue.getD
        (if isCorrect then clue.value else -clue.value)) ∧
      db2.responses.find? (fun r => r.id == responseId) = some resp2 ∧
      db2.teams.find? (fun t => t.id == response.teamId) =
        some { team with
                 score := team.score + awardedValue.getD
                   (if isCorrect then clue.value else -clue.value) } := by
  obtain ⟨db2, h0, h1, h2, -, -⟩ :=
    validateResponse_ok db responseId isCorrect awardedValue operatorId now
      op response clue team hop hrole hresp hclue hteam
  exact ⟨_, db2, h0, rfl, rfl, h1, h2⟩

/-- Witness for C2 at the sample store: the operator validates response 1
(team 1, clue 1 worth 100) as correct with no explicit award; team 1's score
becomes 100. -/
theorem claim_C2_witness :
    ∃ resp2 db2, validateResponse sampleDB 1 true none 20 7 = (.ok resp2, db2) ∧
      resp2.awardedValue = some 100 ∧
      db2.teams.find? (fun t => t.id == 1) =
        some { id := 1, gameId := 1, name := "Alpha", order := 1, score := 100 } := by
  obtain ⟨resp2, db2, h0, -, h2, -, h3⟩ :=
    claim_C2_validateResponse_scoring sampleDB 1 true none 20 7
      { id := 20, role := UserRole.OPERATOR }
      { id := 1, teamId := 1, clueId := 1, submittedById := 5,
        submittedAnswer := "1492", isCorrect := none, awardedValue := none,
        validatedById := none, validatedAt := none }
      { id := 1, categoryId := 1, value := 100 }
      { id := 1, gameId := 1, name := "Alpha", order := 1, score := 0 }
      rfl (Or.inl rfl) rfl rfl rfl
  refine ⟨resp2, db2, h0, ?_, ?_⟩
  · simpa using h2
  · simpa using h3

/-! ### C3: validateResponse is atomic -/

/-- Claim C3: `validateResponse` is all-or-nothing.  On any failure —
including a failure inside the transaction — the returned store is exactly
the input store, so no partial write is observable.  On success all three
writes are present together: the response row carries the computed award, the
response's team (when it exists) is incremented by exactly that award, and an
existing `ClueState` row for the clue is set to `CORRECT`/`INCORRECT` with
`resolvedById` the operator. -/
theorem claim_C3_validateResponse_atomic
    (db : DB) (responseId : Nat) (isCorrect : Bool) (awardedValue : Option Int)
    (operatorId now : Nat) :
    (∀ e, (validateResponse db responseId isCorrect awardedValue operatorId now).1 =
        .error e →
      (validateResponse db responseId isCorrect awardedValue operatorId now).2 = db) ∧
    (∀ resp2, (validateResponse db responseId isCorrect awardedValue operatorId now).1 =
        .ok resp2 →
      ∃ delta, resp2.awardedValue = some delta ∧ resp2.isCorrect = some isCorrect ∧
      (validateResponse db responseId isCorrect awardedValue operatorId
        now).2.responses.find? (fun r => r.id == responseId) = some resp2 ∧
      (∀ team, db.teams.find? (fun t => t.id == resp2.teamId) = some team →
        (validateResponse db responseId isCorrect awardedValue operatorId
          now).2.teams.find? (fun t => t.id == resp2.teamId) =
          some { team with score := team.score + delta }) ∧
      (∀ cs, db.clueStates.find? (fun s => s.clueId == resp2.clueId) = some cs →
        (validateResponse db responseId isCorrect awardedValue operatorId
          now).2.clueStates.find? (fun s => s.clueId == resp2.clueId) =
          some { cs with state := if isCorrect then ClueBoardState.CORRECT
                                  else ClueBoardState.INCORRECT,
                         resolvedById := some operatorId })) := by
  cases hop : db.users.find? (fun u => u.id == operatorId) with
  | none =>
    have hres : validateResponse db responseId isCorrect awardedValue operatorId now =
        (.error "Operator not found", db) := by
      simp only [validateResponse, hop]
    rw [hres]
    exact ⟨fun e _ => rfl, fun resp2 hh => Except.noConfusion hh⟩
  | some op =>
    by_cases hrc : (op.role ≠ UserRole.OPERATOR ∧ op.role ≠ UserRole.HOST)
    · have hres : validateResponse db responseId isCorrect awardedValue operatorId now =
          (.error "Only operators or hosts can validate responses", db) := by
        simp only [validateResponse, hop]
        rw [if_pos hrc]
      rw [hres]
      exact ⟨fun e _ => rfl, fun resp2 hh => Except.noConfusion hh⟩
    · cases hresp : db.responses.find? (fun r => r.id == responseId) with
      | none =>
        have hres : validateResponse db responseId isCorrect awardedValue operatorId now =
            (.error "Response not found", db) := by
          simp only [validateResponse, hop]
          rw [if_neg hrc]
          simp only [hresp]
        rw [hres]
        exact ⟨fun e _ => rfl, fun resp2 hh => Except.noConfusion hh⟩
      | some response =>
        cases hclue : db.clues.find? (fun c => c.id == response.clueId) with
        | none =>
          have hres : validateResponse db responseId isCorrect awardedValue operatorId now =
              (.error "Response not found", db) := by
            simp only [validateResponse, hop]
            rw [if_neg hrc]
            simp only [hresp, hclue]
          rw [hres]
          exact ⟨fun e _ => rfl, fun resp2 hh => Except.noConfusion hh⟩
        | some clue =>
          cases hteamf : db.teams.find? (fun t => t.id == response.teamId) with
          | some team =>
            obtain ⟨db2, htxn, hR, hT, -, -, hCS⟩ :=
              validateResponseTxn_eq db responseId isCorrect
                (awardedValue.getD (if isCorrect then clue.value else -clue.value))
                operatorId now response.teamId response.clueId response team hresp hteamf
            have hres : validateResponse db responseId isCorrect awardedValue operatorId
                now = (.ok { response with
                              isCorrect := some isCorrect,
                              awardedValue := some (awardedValue.getD
                                (if isCorrect then clue.value else -clue.value)),
                              validatedById := some operatorId,
                              validatedAt := some now }, db2) := by
              simp only [validateResponse, hop]
              rw [if_neg hrc]
              simp only [hresp, hclue, htxn]
            rw [hres]
            refine ⟨fun e hh => Except.noConfusion hh, fun r2 hh => ?_⟩
            injection hh with h2
            subst h2
            refine ⟨awardedValue.getD (if isCorrect then clue.value else -clue.value),
                    rfl, rfl, hR, ?_, ?_⟩
            · intro team2 hteam2
              have hteam2b : db.teams.find? (fun t => t.id == response.teamId) =
                  some team2 := hteam2
              rw [hteamf] at hteam2b
              injection hteam2b with h3
              subst h3
              exact hT
            · intro cs hcs
              exact hCS cs hcs
          | none =>
            by_cases hz : awardedValue.getD
                (if isCorrect then clue.value else -clue.value) = 0
            · -- zero delta: the team update is skipped, so the transaction
              -- still commits even though the response's team row is absent.
              have hkeyR : response.id = responseId := by
                simpa using List.find?_some hresp
              have hfindR := find?_upd_self (fun (r : TeamResponse) => r.id == responseId)
                (fun (r : TeamResponse) => if r.id == responseId then
                  { r with isCorrect := some isCorrect,
                           awardedValue := some (awardedValue.getD
                             (if isCorrect then clue.value else -clue.value)),
                           validatedById := some operatorId, validatedAt := some now }
                else r)
                (fun (x : TeamResponse) => by
                  by_cases hx : (x.id == responseId) = true <;> simp [hx]) hresp
              cases hcs : db.clueStates.find? (fun s => s.clueId == response.clueId) with
              | none =>
                have hres : validateResponse db responseId isCorrect awardedValue
                    operatorId now =
                    (.ok { response with
                            isCorrect := some isCorrect,
                            awardedValue := some (awardedValue.getD
                              (if isCorrect then clue.value else -clue.value)),
                            validatedById := some operatorId,
                            validatedAt := some now },
                     { db with responses := db.responses.map (fun r =>
                        if r.id == responseId then
                          { r with isCorrect := some isCorrect,
                                   awardedValue := some (awardedValue.getD
                                     (if isCorrect then clue.value else -clue.value)),
                                   validatedById := some operatorId,
                                   validatedAt := some now }
                        else r) }) := by
                  simp only [validateResponse, hop]
                  rw [if_neg hrc]
                  simp only [hresp, hclue, validateResponseTxn]
                  rw [if_pos hz]
                  simp only [hcs]
                rw [hres]
                refine ⟨fun e hh => Except.noConfusion hh, fun r2 hh => ?_⟩
                injection hh with h2
                subst h2
                refine ⟨awardedValue.getD (if isCorrect then clue.value else -clue.value),
                        rfl, rfl, ?_, ?_, ?_⟩
                · show (db.responses.map _).find? _ = _
                  rw [hfindR]
                  simp [hkeyR]
                · intro team2 hteam2
                  have hteam2b : db.teams.find? (fun t => t.id == response.teamId) =
                      some team2 := hteam2
                  rw [hteamf] at hteam2b
                  exact Option.noConfusion hteam2b
                · intro cs hcsx
                  have hcsb : db.clueStates.find?
                      (fun s => s.clueId == response.clueId) = some cs := hcsx
                  rw [hcs] at hcsb
                  exact Option.noConfusion hcsb
              | some cs0 =>
                have hres : validateResponse db responseId isCorrect awardedValue
                    operatorId now =
                    (.ok { response with
                            isCorrect := some isCorrect,
                            awardedValue := some (awardedValue.getD
                              (if isCorrect then clue.value else -clue.value)),
                            validatedById := some operatorId,
                            validatedAt := some now },
                     { db with
                        responses := db.responses.map (fun r =>
                          if r.id == responseId then
                            { r with isCorrect := some isCorrect,
                                     awardedValue := some (awardedValue.getD
                                       (if isCorrect then clue.value else -clue.value)),
                                     validatedById := some operatorId,
                                     validatedAt := some now }
                          else r),
                        clueStates := db.clueStates.map (fun s =>
                          if s.id == cs0.id then
                            { s with state := if isCorrect then ClueBoardState.CORRECT
                                              else ClueBoardState.INCORRECT,
                                     resolvedById := some operatorId }
                          else s) }) := by
                  simp only [validateResponse, hop]
                  rw [if_neg hrc]
                  simp only [hresp, hclue, validateResponseTxn]
                  rw [if_pos hz]
                  simp only [hcs]
                rw [hres]
                refine ⟨fun e hh => Except.noConfusion hh, fun r2 hh => ?_⟩
                injection hh with h2
                subst h2
                refine ⟨awardedValue.getD (if isCorrect then clue.value else -clue.value),
                        rfl, rfl, ?_, ?_, ?_⟩
                · show (db.responses.map _).find? _ = _
                  rw [hfindR]
                  simp [hkeyR]
                · intro team2 hteam2
                  have hteam2b : db.teams.find? (fun t => t.id == response.teamId) =
                      some team2 := hteam2
                  rw [hteamf] at hteam2b
                  exact Option.noConfusion hteam2b
                · intro cs hcsx
                  have hcsb : db.clueStates.find?
                      (fun s => s.clueId == response.clueId) = some cs := hcsx
                  rw [hcs] at hcsb
                  injection hcsb with h3
                  subst h3
                  have hfound := find?_upd_self (fun (s : ClueState) =>
                      s.clueId == response.clueId)
                    (fun (s : ClueState) => if s.id == cs0.id then
                      { s with state := if isCorrect then ClueBoardState.CORRECT
                                        else ClueBoardState.INCORRECT,
                               resolvedById := some operatorId }
                    else s)
                    (fun (x : ClueState) => by
                      by_cases hx : (x.id == cs0.id) = true <;> simp [hx]) hcs
                  show (db.clueStates.map _).find? _ = _
                  simpa using hfound
            · -- nonzero delta and no team row: the team update fails and the
              -- whole transaction rolls back.
              have hres : validateResponse db responseId isCorrect awardedValue
                  operatorId now = (.error "Transaction failed", db) := by
                simp only [validateResponse, hop]
                rw [if_neg hrc]
                simp only [hresp, hclue, validateResponseTxn]
                rw [if_neg hz]
                simp only [hteamf]
              rw [hres]
              exact ⟨fun e _ => rfl, fun resp2 hh => Except.noConfusion hh⟩

/-- Witness for C3 at the sample store: a failing call (no response with id
999) leaves the store untouched. -/
theorem claim_C3_witness :
    (validateResponse sampleDB 999 true none 20 7).2 = sampleDB :=
  (claim_C3_validateResponse_atomic sampleDB 999 true none 20 7).1
    "Response not found" rfl

/-! ### C9: validateResponse is not idempotent -/

/-- Claim C9: `validateResponse` never checks whether the target response has
already been validated, so two successive calls with `isCorrect = true` and
no explicit `awardedValue` both succeed and add `clue.value` to the team's
score twice. -/
theorem claim_C9_validateResponse_double_count
    (db : DB) (responseId operatorId now1 now2 : Nat)
    (op : User) (response : TeamResponse) (clue : Clue) (team : Team)
    (hop : db.users.find? (fun u => u.id == operatorId) = some op)
    (hrole : op.role = UserRole.OPERATOR ∨ op.role = UserRole.HOST)
    (hresp : db.responses.find? (fun r => r.id == responseId) = some response)
    (hclue : db.clues.find? (fun c => c.id == response.clueId) = some clue)
    (hteam : db.teams.find? (fun t => t.id == response.teamId) = some team) :
    ∃ resp2 db2 resp3 db3,
      validateResponse db responseId true none operatorId now1 = (.ok resp2, db2) ∧
      validateResponse db2 responseId true none operatorId now2 = (.ok resp3, db3) ∧
      db3.teams.find? (fun t => t.id == response.teamId) =
        some { team with score := team.score + clue.value + clue.value } := by
  obtain ⟨db2, e1, f1, g1, u1, c1⟩ :=
    validateResponse_ok db responseId true none operatorId now1
      op response clue team hop hrole hresp hclue hteam
  have hop2 : db2.users.find? (fun u => u.id == operatorId) = some op := by
    rw [u1]; exact hop
  have hclue2 : db2.clues.find? (fun c => c.id == response.clueId) = some clue := by
    rw [c1]; exact hclue
  obtain ⟨db3, e2, f2, g2, u2, c2⟩ :=
    validateResponse_ok db2 responseId true none operatorId now2
      op
      { response with isCorrect := some true,
                      awardedValue := some ((none : Option Int).getD
                        (if true then clue.value else -clue.value)),
                      validatedById := some operatorId, validatedAt := some now1 }
      clue
      { team with
          score := team.score + (none : Option Int).getD
            (if true then clue.value else -clue.value) }
      hop2 hrole f1 hclue2 g1
  exact ⟨_, db2, _, db3, e1, e2, g2⟩

/-- Witness for C9 at the sample store: validating response 1 (clue value
100) twice leaves team 1 with score 200. -/
theorem claim_C9_witness :
    ∃ resp2 db2 resp3 db3,
      validateResponse sampleDB 1 true none 20 7 = (.ok resp2, db2) ∧
      validateResponse db2 1 true none 20 8 = (.ok resp3, db3) ∧
      db3.teams.find? (fun t => t.id == 1) =
        some { id := 1, gameId := 1, name := "Alpha", order := 1, score := 200 } := by
  obtain ⟨r2, d2, r3, d3, h1, h2, h3⟩ :=
    claim_C9_validateResponse_double_count sampleDB 1 20 7 8
      { id := 20, role := UserRole.OPERATOR }
      { id := 1, teamId := 1, clueId := 1, submittedById := 5,
        submittedAnswer := "1492", isCorrect := none, awardedValue := none,
        validatedById := none, validatedAt := none }
      { id := 1, categoryId := 1, value := 100 }
      { id := 1, gameId := 1, name := "Alpha", order := 1, score := 0 }
      rfl (Or.inl rfl) rfl rfl rfl
  exact ⟨r2, d2, r3, d3, h1, h2, by simpa using h3⟩

/-! ### C6: removeTeam re-numbers the remaining teams 1..N -/

theorem idxOfId_lt_length {tid : Nat} :
    ∀ {l : List Team} {i : Nat}, idxOfId tid l = some i → i < l.length := by
  intro l
  induction l with
  | nil => intro i h; simp [idxOfId] at h
  | cons hd tl ih =>
    intro i h
    by_cases hx : (hd.id == tid) = true
    · simp only [idxOfId, hx, if_true] at h
      injection h with h2
      subst h2
      simp
    · simp only [idxOfId, hx, if_false, Bool.false_eq_true] at h
      cases hrec : idxOfId tid tl with
      | none => rw [hrec] at h; simp at h
      | some j =>
        rw [hrec] at h
        have h2 : j + 1 = i := by simpa using h
        subst h2
        exact Nat.succ_lt_succ (ih hrec)

theorem idxOfId_mem {l : List Team} {t : Team} (h : t ∈ l) :
    ∃ i, idxOfId t.id l = some i := by
  induction l with
  | nil => cases h
  | cons hd tl ih =>
    by_cases hx : (hd.id == t.id) = true
    · exact ⟨0, by simp [idxOfId, hx]⟩
    · rcases List.mem_cons.mp h with h2 | hmem
      · exact absurd (by rw [h2]; simp) hx
      · obtain ⟨j, hj⟩ := ih hmem
        exact ⟨j + 1, by simp [idxOfId, hx, hj]⟩

theorem idxOfId_get_id {tid : Nat} :
    ∀ {l : List Team} {i : Nat}, idxOfId tid l = some i →
      ∃ hi : i < l.length, ((l.get ⟨i, hi⟩).id == tid) = true := by
  intro l
  induction l with
  | nil => intro i h; simp [idxOfId] at h
  | cons hd tl ih =>
    intro i h
    by_cases hx : (hd.id == tid) = true
    · simp only [idxOfId, hx, if_true] at h
      injection h with h2
      subst h2
      exact ⟨by simp, hx⟩
    · simp only [idxOfId, hx, if_false, Bool.false_eq_true] at h
      cases hrec : idxOfId tid tl with
      | none => rw [hrec] at h; simp at h
      | some j =>
        rw [hrec] at h
        have h2 : j + 1 = i := by simpa using h
        subst h2
        obtain ⟨hj, hgj⟩ := ih hrec
        exact ⟨Nat.succ_lt_succ hj, hgj⟩

theorem idxOfId_get_self {l : List Team} (hnd : (l.map (fun t => t.id)).Nodup) :
    ∀ (i : Nat) (hi : i < l.length), idxOfId (l.get ⟨i, hi⟩).id l = some i := by
  induction l with
  | nil => intro i hi; simp at hi
  | cons hd tl ih =>
    rw [List.map_cons] at hnd
    obtain ⟨hnotin, hnd2⟩ := List.nodup_cons.mp hnd
    intro i hi
    cases i with
    | zero => simp [idxOfId]
    | succ j =>
      have hj : j < tl.length := by simpa using Nat.lt_of_succ_lt_succ hi
      have hget : ((hd :: tl).get ⟨j + 1, hi⟩) = tl.get ⟨j, hj⟩ := rfl
      have hx : ¬ (hd.id == (tl.get ⟨j, hj⟩).id) = true := by
        intro hcontra
        have heq : hd.id = (tl.get ⟨j, hj⟩).id := by simpa using hcontra
        exact hnotin (heq ▸ List.mem_map_of_mem _ (tl.get_mem j hj))
      rw [hget]
      simp only [idxOfId, hx, if_false, Bool.false_eq_true]
      rw [ih hnd2 j hj]
      rfl

theorem find?_id_of_mem_nodup {l : List Team}
    (hnd : (l.map (fun t => t.id)).Nodup) {a : Team} (ha : a ∈ l) :
    l.find? (fun t => t.id == a.id) = some a := by
  induction l with
  | nil => cases ha
  | cons hd tl ih =>
    rw [List.map_cons] at hnd
    obtain ⟨hnotin, hnd2⟩ := List.nodup_cons.mp hnd
    rcases List.mem_cons.mp ha with h2 | hmem
    · subst h2
      simp [List.find?]
    · have hxf : (hd.id == a.id) = false := by
        cases hb : (hd.id == a.id) with
        | false => rfl
        | true =>
          have heq : hd.id = a.id := by simpa using hb
          exact absurd (heq ▸ List.mem_map_of_mem (fun t => t.id) hmem) hnotin
      simp only [List.find?, hxf]
      exact ih hnd2 hmem

theorem renumberRow_id (sorted : List Team) (t : Team) :
    (renumberRow sorted t).id = t.id := by
  unfold renumberRow
  cases idxOfId t.id sorted <;> rfl

theorem renumberRow_gameId (sorted : List Team) (t : Team) :
    (renumberRow sorted t).gameId = t.gameId := by
  unfold renumberRow
  cases idxOfId t.id sorted <;> rfl

theorem renumberRow_of_idx {sorted : List Team} {t : Team} {i : Nat}
    (h : idxOfId t.id sorted = some i) :
    renumberRow sorted t = { t with order := i + 1 } := by
  unfold renumberRow
  rw [h]

theorem sortByOrder_perm (l : List Team) : (sortByOrder l).Perm l :=
  List.perm_insertionSort _ l

theorem sortByOrder_sorted (l : List Team) :
    (sortByOrder l).Sorted (fun a b => a.order ≤ b.order) := by
  haveI : IsTotal Team (fun a b => a.order ≤ b.order) :=
    ⟨fun a b => Nat.le_total a.order b.order⟩
  haveI : IsTrans Team (fun a b => a.order ≤ b.order) :=
    ⟨fun a b c hab hbc => Nat.le_trans hab hbc⟩
  exact List.sorted_insertionSort _ l

theorem renumberTeams_filter (teams : List Team) (gid : Nat) :
    (renumberTeams teams gid).filter (fun t => t.gameId == gid) =
      (teams.filter (fun t => t.gameId == gid)).map
        (renumberRow (sortByOrder (teams.filter (fun t => t.gameId == gid)))) := by
  have hcong : teams.filter ((fun t => t.gameId == gid) ∘
      renumberRow (sortByOrder (teams.filter (fun t => t.gameId == gid)))) =
      teams.filter (fun t => t.gameId == gid) := by
    apply List.filter_congr
    intro x _
    show ((renumberRow _ x).gameId == gid) = (x.gameId == gid)
    rw [renumberRow_gameId]
  unfold renumberTeams
  rw [@List.filter_map Team Team (fun t => t.gameId == gid)
    (renumberRow (sortByOrder (teams.filter (fun t => t.gameId == gid)))) teams]
  rw [hcong]

theorem renumberTeams_contiguous (teams : List Team) (gid : Nat)
    (hnd : (teams.map (fun t => t.id)).Nodup) :
    ∀ k, (∃ t2 ∈ (renumberTeams teams gid).filter (fun t => t.gameId == gid),
        t2.order = k) ↔
      (1 ≤ k ∧
        k ≤ ((renumberTeams teams gid).filter (fun t => t.gameId == gid)).length) := by
  have hndGT : ((teams.filter (fun t => t.gameId == gid)).map
      (fun t => t.id)).Nodup :=
    hnd.sublist ((List.filter_sublist teams).map _)
  have hperm := sortByOrder_perm (teams.filter (fun t => t.gameId == gid))
  have hndS : ((sortByOrder (teams.filter (fun t => t.gameId == gid))).map
      (fun t => t.id)).Nodup :=
    ((hperm.map (fun t => t.id)).nodup_iff).mpr hndGT
  have hlenfilt : ((renumberTeams teams gid).filter
      (fun t => t.gameId == gid)).length =
      (sortByOrder (teams.filter (fun t => t.gameId == gid))).length := by
    rw [renumberTeams_filter, List.length_map, hperm.length_eq]
  intro k
  constructor
  · rintro ⟨t2, ht2, hord⟩
    rw [renumberTeams_filter] at ht2
    obtain ⟨s, hs, hmap⟩ := List.mem_map.mp ht2
    have hsS : s ∈ sortByOrder (teams.filter (fun t => t.gameId == gid)) :=
      hperm.mem_iff.mpr hs
    obtain ⟨i, hi⟩ := idxOfId_mem hsS
    have hlt := idxOfId_lt_length hi
    rw [renumberRow_of_idx hi] at hmap
    have : t2.order = i + 1 := by rw [← hmap]
    rw [hlenfilt]
    omega
  · rintro ⟨hk1, hk2⟩
    rw [hlenfilt] at hk2
    have hi : k - 1 < (sortByOrder (teams.filter (fun t => t.gameId == gid))).length := by
      omega
    have hidx := idxOfId_get_self hndS (k - 1) hi
    have hmemS := (sortByOrder (teams.filter (fun t => t.gameId == gid))).get_mem
      (k - 1) hi
    have hmemGT : (sortByOrder (teams.filter (fun t => t.gameId == gid))).get
        ⟨k - 1, hi⟩ ∈ teams.filter (fun t => t.gameId == gid) :=
      hperm.mem_iff.mp hmemS
    refine ⟨renumberRow (sortByOrder (teams.filter (fun t => t.gameId == gid)))
      ((sortByOrder (teams.filter (fun t => t.gameId == gid))).get ⟨k - 1, hi⟩),
      ?_, ?_⟩
    · rw [renumberTeams_filter]
      exact List.mem_map_of_mem _ hmemGT
    · rw [renumberRow_of_idx hidx]
      show k - 1 + 1 = k
      omega

theorem renumberTeams_preserves_order (teams : List Team) (gid : Nat)
    (hnd : (teams.map (fun t => t.id)).Nodup) (a b : Team)
    (ha : a ∈ teams) (hb : b ∈ teams)
    (hga : a.gameId = gid) (hgb : b.gameId = gid) (hlt : a.order < b.order) :
    ∃ a2 b2, (renumberTeams teams gid).find? (fun t => t.id == a.id) = some a2 ∧
      (renumberTeams teams gid).find? (fun t => t.id == b.id) = some b2 ∧
      a2.order < b2.order := by
  have hndGT : ((teams.filter (fun t => t.gameId == gid)).map
      (fun t => t.id)).Nodup :=
    hnd.sublist ((List.filter_sublist teams).map _)
  have hperm := sortByOrder_perm (teams.filter (fun t => t.gameId == gid))
  have hndS : ((sortByOrder (teams.filter (fun t => t.gameId == gid))).map
      (fun t => t.id)).Nodup :=
    ((hperm.map (fun t => t.id)).nodup_iff).mpr hndGT
  have hsorted := sortByOrder_sorted (teams.filter (fun t => t.gameId == gid))
  have haGT : a ∈ teams.filter (fun t => t.gameId == gid) :=
    List.mem_filter.mpr ⟨ha, by simp [hga]⟩
  have hbGT : b ∈ teams.filter (fun t => t.gameId == gid) :=
    List.mem_filter.mpr ⟨hb, by simp [hgb]⟩
  have haS : a ∈ sortByOrder (teams.filter (fun t => t.gameId == gid)) :=
    hperm.mem_iff.mpr haGT
  have hbS : b ∈ sortByOrder (teams.filter (fun t => t.gameId == gid)) :=
    hperm.mem_iff.mpr hbGT
  obtain ⟨ia, hia⟩ := idxOfId_mem haS
  obtain ⟨ib, hib⟩ := idxOfId_mem hbS
  obtain ⟨hlta, hgeta⟩ := idxOfId_get_id hia
  obtain ⟨hltb, hgetb⟩ := idxOfId_get_id hib
  have hmemTeams : ∀ {x : Team},
      x ∈ sortByOrder (teams.filter (fun t => t.gameId == gid)) → x ∈ teams :=
    fun hx => (List.mem_filter.mp (hperm.mem_iff.mp hx)).1
  have hinj := List.inj_on_of_nodup_map hnd
  have hgeta2 : (sortByOrder (teams.filter (fun t => t.gameId == gid))).get
      ⟨ia, hlta⟩ = a := by
    apply hinj (hmemTeams ((sortByOrder _).get_mem ia hlta)) ha
    simpa using hgeta
  have hgetb2 : (sortByOrder (teams.filter (fun t => t.gameId == gid))).get
      ⟨ib, hltb⟩ = b := by
    apply hinj (hmemTeams ((sortByOrder _).get_mem ib hltb)) hb
    simpa using hgetb
  have hiab : ia < ib := by
    rcases Nat.lt_trichotomy ia ib with h | h | h
    · exact h
    · exfalso
      have : a = b := by
        rw [← hgeta2, ← hgetb2]
        congr 1
        exact Fin.ext h
      rw [this] at hlt
      exact Nat.lt_irrefl _ hlt
    · exfalso
      have hle := hsorted.rel_get_of_lt
        (show (⟨ib, hltb⟩ : Fin (sortByOrder
            (teams.filter (fun t => t.gameId == gid))).length) < ⟨ia, hlta⟩ from
          Fin.mk_lt_mk.mpr h)
      rw [hgeta2, hgetb2] at hle
      omega
  have hfa : teams.find? (fun t => t.id == a.id) = some a :=
    find?_id_of_mem_nodup hnd ha
  have hfb : teams.find? (fun t => t.id == b.id) = some b :=
    find?_id_of_mem_nodup hnd hb
  have hpfa : ∀ x : Team, (((renumberRow (sortByOrder
      (teams.filter (fun t => t.gameId == gid)))) x).id == a.id) = (x.id == a.id) := by
    intro x
    rw [renumberRow_id]
  have hpfb : ∀ x : Team, (((renumberRow (sortByOrder
      (teams.filter (fun t => t.gameId == gid)))) x).id == b.id) = (x.id == b.id) := by
    intro x
    rw [renumberRow_id]
  refine ⟨{ a with order := ia + 1 }, { b with order := ib + 1 }, ?_, ?_, ?_⟩
  · unfold renumberTeams
    rw [find?_upd_self (fun t => t.id == a.id)
      (renumberRow (sortByOrder (teams.filter (fun t => t.gameId == gid))))
      hpfa hfa, renumberRow_of_idx hia]
  · unfold renumberTeams
    rw [find?_upd_self (fun t => t.id == b.id)
      (renumberRow (sortByOrder (teams.filter (fun t => t.gameId == gid))))
      hpfb hfb, renumberRow_of_idx hib]
  · show ia + 1 < ib + 1
    omega

/-- Claim C6: after a successful `removeTeam` (existing team, game in
`LOBBY`, host actor, unique team ids), the remaining teams of that game carry
order values forming a contiguous `1..N` sequence — a value `k` is taken by
some remaining team iff `1 ≤ k ≤ N` — and the relative ordering of the
remaining teams by their previous order values is preserved. -/
theorem claim_C6_removeTeam_renumbering
    (db : DB) (teamId actorId : Nat) (team : Team) (game : Game)
    (hnd : (db.teams.map (fun t => t.id)).Nodup)
    (hteam : db.teams.find? (fun t => t.id == teamId) = some team)
    (hgame : db.games.find? (fun g => g.id == team.gameId) = some game)
    (hlobby : game.status = GameStatus.LOBBY)
    (hhost : game.hostId = actorId) :
    ∃ db2, removeTeam db teamId actorId = (.ok (), db2) ∧
      (∀ k, (∃ t2 ∈ db2.teams.filter (fun t => t.gameId == team.gameId),
          t2.order = k) ↔
        (1 ≤ k ∧ k ≤ (db2.teams.filter (fun t => t.gameId == team.gameId)).length)) ∧
      (∀ a b, a ∈ db.teams → b ∈ db.teams →
        a.gameId = team.gameId → b.gameId = team.gameId →
        ¬ a.id = teamId → ¬ b.id = teamId → a.order < b.order →
        ∃ a2 b2, db2.teams.find? (fun t => t.id == a.id) = some a2 ∧
          db2.teams.find? (fun t => t.id == b.id) = some b2 ∧
          a2.order < b2.order) := by
  have hndAD : ((db.teams.filter (fun t => ! (t.id == teamId))).map
      (fun t => t.id)).Nodup :=
    hnd.sublist ((List.filter_sublist db.teams).map _)
  refine ⟨{ db with
              teams := renumberTeams
                         (db.teams.filter (fun t => ! (t.id == teamId)))
                         team.gameId,
              teamMembers := db.teamMembers.filter
                               (fun m => ! (m.teamId == teamId)) },
          ?_, ?_, ?_⟩
  · simp only [removeTeam, hteam, hgame]
    rw [if_neg (fun hne => hne hlobby), if_neg (fun hne => hne hhost)]
  · intro k
    exact renumberTeams_contiguous _ team.gameId hndAD k
  · intro a b ha hb hga hgb haid hbid hlt
    have haAD : a ∈ db.teams.filter (fun t => ! (t.id == teamId)) := by
      refine List.mem_filter.mpr ⟨ha, ?_⟩
      cases hbq : (a.id == teamId) with
      | false => rfl
      | true => exact absurd (by simpa using hbq) haid
    have hbAD : b ∈ db.teams.filter (fun t => ! (t.id == teamId)) := by
      refine List.mem_filter.mpr ⟨hb, ?_⟩
      cases hbq : (b.id == teamId) with
      | false => rfl
      | true => exact absurd (by simpa using hbq) hbid
    exact renumberTeams_preserves_order _ team.gameId hndAD a b haAD hbAD hga hgb hlt

/-- Witness for C6 at the sample store: the host removes team 3 (order 2) of
game 2; the remaining teams' order values are exactly 1..N. -/
theorem claim_C6_witness :
    ∃ db2, removeTeam sampleDB 3 10 = (.ok (), db2) ∧
      (∀ k, (∃ t2 ∈ db2.teams.filter (fun t => t.gameId == 2), t2.order = k) ↔
        (1 ≤ k ∧ k ≤ (db2.teams.filter (fun t => t.gameId == 2)).length)) := by
  obtain ⟨db2, h1, h2, -⟩ :=
    claim_C6_removeTeam_renumbering sampleDB 3 10
      { id := 3, gameId := 2, name := "Charlie", order := 2, score := 0 }
      { id := 2, title := "Full Lobby", hostId := 10, teamLimit := 3,
        status := GameStatus.LOBBY }
      (by decide) rfl rfl rfl rfl
  exact ⟨db2, h1, h2⟩

end TriviaBoard
